import Mathlib

/-!
Shallow embedding of the OAuth 2.1 authorization subsystem of the
mcp-typescript-template repository:

* `src/src/auth/oauth-provider.ts` — `OAuthProvider` (grant store,
  PKCE-verified code exchange, access-token store and validation);
* `src/src/auth/token-validator.ts` — `OAuthTokenValidator` (JWT
  verification with remote-introspection fallback);
* `src/src/auth/routes.ts` — `createAuthorizeHandler` and
  `createCallbackHandler` (the auth-proxy flow).

Modelling conventions:

* JavaScript `Date` values become `Nat` millisecond timestamps; the current
  time `new Date()` / `Date.now()` is passed explicitly as `now`.
* The in-memory `Map`s become association lists with `mapGet` / `mapSet` /
  `mapDelete` mirroring `Map.get` / `Map.set` / `Map.delete`.
* `base64url(sha256(·))` (`createHash("sha256")...digest("base64url")`) is an
  injective-in-practice pure function of the input string; it is abstracted as
  an explicit function parameter `H`.
* Calls to `randomBytes(..)` are passed in as explicit fresh-value parameters.
* Optional query/JSON string values become `Option String`; JavaScript
  truthiness of such a value (both `undefined` and `""` are falsy) is
  `jsTruthy`, and the `a || b` idiom is `jsOr` / `jsOrDefault`.
* The outcomes of external effects (the `jose` JWT verification, the
  introspection `fetch`, the IdP token exchange) are passed in as explicit
  outcome values; a thrown exception is an `Except.error` that the modelled
  `try`/`catch` boundaries intercept.
-/

/-- JavaScript truthiness of an optional string: `undefined` and `""` are
falsy, every other string is truthy. -/
def jsTruthy : Option String → Bool
  | some s => s ≠ ""
  | none => false

/-- JavaScript `a || b` on two optional strings. -/
def jsOr (a b : Option String) : Option String :=
  if jsTruthy a then a else b

/-- JavaScript `a || d` where `d` is a mandatory string default. -/
def jsOrDefault (a : Option String) (d : String) : String :=
  if jsTruthy a then a.getD d else d

/-- `Map.get`: the value stored for key `k`, if any. -/
def mapGet {α : Type} (m : List (String × α)) (k : String) : Option α :=
  match m.find? (fun p => p.1 == k) with
  | some p => some p.2
  | none => none

/-- `Map.set`: store `v` under `k`, replacing any previous binding. -/
def mapSet {α : Type} (m : List (String × α)) (k : String) (v : α) :
    List (String × α) :=
  (k, v) :: m.filter (fun p => !(p.1 == k))

/-- `Map.delete`: remove the binding for `k`, if any. -/
def mapDelete {α : Type} (m : List (String × α)) (k : String) :
    List (String × α) :=
  m.filter (fun p => !(p.1 == k))

/-! ### oauth-provider.ts: data model -/

/-- The `externalTokens` record attached to an `AuthorizationCodeData`
(`src/src/auth/oauth-provider.ts`). -/
structure ExternalTokens where
  accessToken : String
  refreshToken : Option String
  idToken : Option String
  expiresAt : Nat
  scope : Option String
deriving DecidableEq, Repr

/-- `AuthorizationCodeData` from `src/src/auth/oauth-provider.ts`. -/
structure AuthorizationCodeData where
  clientId : String
  redirectUri : String
  scope : String
  codeChallenge : String
  codeChallengeMethod : String
  expiresAt : Nat
  externalTokens : Option ExternalTokens
  userId : Option String
deriving DecidableEq, Repr

/-- The value type of the `#accessTokens` map of `OAuthProvider`. -/
structure AccessTokenData where
  userId : String
  scope : String
  expiresAt : Nat
  externalTokens : Option ExternalTokens
deriving DecidableEq, Repr

/-- The two in-memory stores of `OAuthProvider`: `#authorizationCodes` and
`#accessTokens`. -/
structure ProviderState where
  authorizationCodes : List (String × AuthorizationCodeData)
  accessTokens : List (String × AccessTokenData)
deriving DecidableEq, Repr

/-- The non-null return value of `exchangeAuthorizationCode`. -/
structure TokenDescriptor where
  accessToken : String
  expiresIn : Nat
  scope : String
deriving DecidableEq, Repr

/-- Return type of `OAuthProvider.validateToken`. -/
structure ProviderValidation where
  valid : Bool
  userId : Option String
  scope : Option String
deriving DecidableEq, Repr

/-! ### oauth-provider.ts: operations -/

/-- `OAuthProvider.verifyPKCE`: the S256 check
`createHash("sha256").update(codeVerifier).digest().toString("base64url")
=== codeChallenge`, with `H` abstracting `base64url(sha256(·))`. -/
def verifyPKCE (H : String → String) (codeVerifier codeChallenge : String) :
    Bool :=
  H codeVerifier == codeChallenge

/-- `OAuthProvider.storeAuthorizationCode`: unconditional insert. -/
def storeAuthorizationCode (code : String) (data : AuthorizationCodeData)
    (s : ProviderState) : ProviderState :=
  { s with authorizationCodes := mapSet s.authorizationCodes code data }

/-- The external-token payload handed to
`storeAuthorizationCodeWithTokens` (lifetime still in seconds). -/
structure ExternalTokenInput where
  accessToken : String
  refreshToken : Option String
  idToken : Option String
  expiresIn : Nat
  scope : Option String
deriving DecidableEq, Repr

/-- `OAuthProvider.storeAuthorizationCodeWithTokens`: attach the IdP tokens
(converting `expiresIn` seconds to an absolute ms deadline) and the user id,
then store the grant. -/
def storeAuthorizationCodeWithTokens (now : Nat) (code : String)
    (data : AuthorizationCodeData) (ext : ExternalTokenInput)
    (userId : Option String) (s : ProviderState) : ProviderState :=
  storeAuthorizationCode code
    { data with
      userId := userId
      externalTokens := some
        { accessToken := ext.accessToken
          refreshToken := ext.refreshToken
          idToken := ext.idToken
          expiresAt := now + ext.expiresIn * 1000
          scope := ext.scope } } s

/-- `OAuthProvider.exchangeAuthorizationCode`. `freshTokenHex` is the
`randomBytes(32).toString("hex")` draw and `freshUserId` the
`generateUserId()` draw consumed on the success path. Returns the token
descriptor (or `none`) together with the updated stores. -/
def exchangeAuthorizationCode (H : String → String) (now : Nat)
    (freshTokenHex freshUserId : String)
    (code codeVerifier clientId redirectUri : String) (s : ProviderState) :
    Option TokenDescriptor × ProviderState :=
  match mapGet s.authorizationCodes code with
  | none => (none, s)
  | some codeData =>
    if codeData.expiresAt < now then
      (none, { s with authorizationCodes := mapDelete s.authorizationCodes code })
    else if codeData.clientId ≠ clientId ∨ codeData.redirectUri ≠ redirectUri then
      (none, s)
    else if verifyPKCE H codeVerifier codeData.codeChallenge = false then
      (none, s)
    else
      (some { accessToken := "mcp_" ++ freshTokenHex
              expiresIn := 3600
              scope := codeData.scope },
       { authorizationCodes := mapDelete s.authorizationCodes code
         accessTokens := mapSet s.accessTokens ("mcp_" ++ freshTokenHex)
           { userId := jsOrDefault codeData.userId freshUserId
             scope := codeData.scope
             expiresAt := now + 60 * 60 * 1000
             externalTokens := codeData.externalTokens } })

/-- `OAuthProvider.validateToken`: map lookup plus expiry check, deleting the
record on expiry. -/
def providerValidateToken (now : Nat) (token : String) (s : ProviderState) :
    ProviderValidation × ProviderState :=
  match mapGet s.accessTokens token with
  | none => ({ valid := false, userId := none, scope := none }, s)
  | some tokenData =>
    if tokenData.expiresAt < now then
      ({ valid := false, userId := none, scope := none },
       { s with accessTokens := mapDelete s.accessTokens token })
    else
      ({ valid := true, userId := some tokenData.userId,
         scope := some tokenData.scope }, s)

/-! ### token-validator.ts -/

/-- `TokenValidationResult` from `src/src/auth/token-validator.ts`. -/
structure TokenValidationResult where
  valid : Bool
  userId : Option String
  error : Option String
deriving DecidableEq, Repr

/-- The JSON body of a successful introspection response, restricted to the
fields the code reads. -/
structure IntrospectionBody where
  active : Bool
  aud : Option String
  sub : Option String
  user_id : Option String
  username : Option String
deriving DecidableEq, Repr

/-- Outcome of the introspection `fetch` round trip: the request (or the
body parse) threw, the response had a non-ok status, or a body was parsed. -/
inductive FetchOutcome where
  | threw
  | badStatus
  | ok (body : IntrospectionBody)
deriving DecidableEq, Repr

/-- Outcome of `jose.jwtVerify` inside `validateJWT`: success (with the
payload fields the code reads), or one of the three specifically caught
error classes, or any other thrown error. -/
inductive JWTVerifyOutcome where
  | verified (sub user_id username : Option String)
  | expired
  | invalid
  | noMatchingKey
  | otherError
deriving DecidableEq, Repr

/-- `OAuthTokenValidator.introspectToken`. `Except.error` models a thrown
exception (network failure or body-parse failure) escaping this method. -/
def introspectToken (audience : Option String) (fetch : FetchOutcome) :
    Except Unit TokenValidationResult :=
  match fetch with
  | .threw => .error ()
  | .badStatus =>
    .ok { valid := false, userId := none
          error := some "Token introspection failed" }
  | .ok body =>
    if body.active = false then
      .ok { valid := false, userId := none, error := some "Token is not active" }
    else if jsTruthy audience = true ∧ body.aud ≠ audience then
      .ok { valid := false, userId := none, error := some "Invalid audience" }
    else
      .ok { valid := true
            userId := jsOr body.sub (jsOr body.user_id body.username)
            error := none }

/-- `OAuthTokenValidator.validateJWT`: classify the `jwtVerify` outcome; the
three recognised error classes give terminal results, any other error falls
through to introspection. -/
def validateJWT (audience : Option String) (jwt : JWTVerifyOutcome)
    (fetch : FetchOutcome) : Except Unit TokenValidationResult :=
  match jwt with
  | .verified sub user_id username =>
    .ok { valid := true
          userId := jsOr sub (jsOr user_id username)
          error := none }
  | .expired => .ok { valid := false, userId := none, error := some "Token expired" }
  | .invalid => .ok { valid := false, userId := none, error := some "Invalid token" }
  | .noMatchingKey =>
    .ok { valid := false, userId := none, error := some "No matching key found" }
  | .otherError => introspectToken audience fetch

/-- The JWT shape test `token.split(".").length === 3`: splitting on every
`.` yields `count "." + 1` segments, so three segments means exactly two
dots. -/
def isJWTShaped (token : String) : Bool :=
  token.toList.count (Char.ofNat 46) == 2

/-- `OAuthTokenValidator.validateToken`: dispatch on the JWT shape test and
catch every escaping exception, mapping it to the generic failure result. -/
def validateToken (audience : Option String) (token : String)
    (jwt : JWTVerifyOutcome) (fetch : FetchOutcome) : TokenValidationResult :=
  match (if isJWTShaped token then validateJWT audience jwt fetch
         else introspectToken audience fetch) with
  | .ok v => v
  | .error _ =>
    { valid := false, userId := none, error := some "Token validation failed" }

/-! ### routes.ts: the auth-proxy handlers -/

/-- `PendingAuthRequest` from `src/src/auth/routes.ts`. -/
structure PendingAuthRequest where
  clientId : String
  redirectUri : String
  scope : String
  state : String
  codeChallenge : String
  codeChallengeMethod : String
  expiresAt : Nat
  externalCodeVerifier : String
  externalCodeChallenge : String
deriving DecidableEq, Repr

/-- The configuration fields the two handlers read. -/
structure AuthConfig where
  ENABLE_AUTH : Bool
  OAUTH_ISSUER : String
  OAUTH_CLIENT_ID : String
  OAUTH_REDIRECT_URI : String
deriving DecidableEq, Repr

/-- Query parameters of a `GET /authorize` request. -/
structure AuthorizeQuery where
  response_type : Option String
  client_id : Option String
  redirect_uri : Option String
  scope : Option String
  state : Option String
  code_challenge : Option String
  code_challenge_method : Option String
deriving DecidableEq, Repr

/-- Query parameters of a `GET /callback` request. -/
structure CallbackQuery where
  code : Option String
  state : Option String
  error : Option String
  error_description : Option String
deriving DecidableEq, Repr

/-- The external token-exchange response body read by the callback. -/
structure TokenExchangeResponse where
  access_token : String
  token_type : String
  expires_in : Nat
  scope : Option String
  id_token : Option String
  refresh_token : Option String
deriving DecidableEq, Repr

/-- An HTTP outcome of a handler: a JSON error response with a status, or a
redirect to `base` with query parameters `params`. -/
inductive HandlerResult where
  | errorResp (status : Nat) (error : String) (description : String)
  | redirect (base : String) (params : List (String × String))
deriving DecidableEq, Repr

/-- `createAuthorizeHandler` from `src/src/auth/routes.ts`. `requestId`,
`freshState` and `extVerifier` are the three `randomBytes` draws (request id,
fallback `state`, external code verifier); `H` is `base64url(sha256(·))`.
Returns the HTTP outcome and the updated `pendingRequests` map. -/
def authorizeHandler (cfg : AuthConfig) (now : Nat)
    (requestId freshState extVerifier : String) (H : String → String)
    (q : AuthorizeQuery) (pending : List (String × PendingAuthRequest)) :
    HandlerResult × List (String × PendingAuthRequest) :=
  if cfg.ENABLE_AUTH = false then
    (.errorResp 500 "server_error" "Authentication not configured", pending)
  else if q.response_type ≠ some "code" then
    (.errorResp 400 "unsupported_response_type"
      "Only the code response type is supported", pending)
  else if jsTruthy q.client_id = false ∨ jsTruthy q.redirect_uri = false then
    (.errorResp 400 "invalid_request"
      "Missing required parameters: client_id, redirect_uri", pending)
  else if jsTruthy q.code_challenge = false ∨
      q.code_challenge_method ≠ some "S256" then
    (.errorResp 400 "invalid_request" "PKCE with S256 is required", pending)
  else
    (.redirect (cfg.OAUTH_ISSUER ++ "/oauth/authorize")
      [("response_type", "code"),
       ("client_id", cfg.OAUTH_CLIENT_ID),
       ("redirect_uri", cfg.OAUTH_REDIRECT_URI),
       ("scope", jsOrDefault q.scope "openid profile email"),
       ("state", requestId),
       ("code_challenge", H extVerifier),
       ("code_challenge_method", "S256")],
     mapSet pending requestId
       { clientId := q.client_id.getD ""
         redirectUri := q.redirect_uri.getD ""
         scope := jsOrDefault q.scope "openid profile email"
         state := jsOrDefault q.state freshState
         codeChallenge := q.code_challenge.getD ""
         codeChallengeMethod := q.code_challenge_method.getD ""
         expiresAt := now + 10 * 60 * 1000
         externalCodeVerifier := extVerifier
         externalCodeChallenge := H extVerifier })

/-- `createCallbackHandler` from `src/src/auth/routes.ts`. `exchangeResult`
is the outcome of `exchangeCodeForTokens` with the external IdP (`none` for
both a non-ok response and a caught exception, which that helper maps to
`null`); `mcpAuthCode` and `freshUserHex` are the `randomBytes` draws on the
success path. Returns the HTTP outcome, the updated `pendingRequests` map,
and the updated provider stores. -/
def callbackHandler (now : Nat) (exchangeResult : Option TokenExchangeResponse)
    (mcpAuthCode freshUserHex : String) (q : CallbackQuery)
    (pending : List (String × PendingAuthRequest)) (s : ProviderState) :
    HandlerResult × List (String × PendingAuthRequest) × ProviderState :=
  if jsTruthy q.error = true then
    (.errorResp 400 (q.error.getD "")
      (jsOrDefault q.error_description "OAuth authorization failed"),
     pending, s)
  else if jsTruthy q.code = false ∨ jsTruthy q.state = false then
    (.errorResp 400 "invalid_request" "Missing authorization code or state",
     pending, s)
  else
    match mapGet pending (q.state.getD "") with
    | none =>
      (.errorResp 400 "invalid_request" "Unknown or expired authorization request",
       pending, s)
    | some originalRequest =>
      if originalRequest.expiresAt < now then
        (.errorResp 400 "invalid_request" "Authorization request has expired",
         mapDelete pending (q.state.getD ""), s)
      else
        match exchangeResult with
        | none =>
          (.errorResp 500 "server_error"
            "Failed to exchange authorization code for tokens",
           mapDelete pending (q.state.getD ""), s)
        | some tokenResponse =>
          (.redirect originalRequest.redirectUri
            [("code", mcpAuthCode), ("state", originalRequest.state)],
           mapDelete pending (q.state.getD ""),
           storeAuthorizationCodeWithTokens now mcpAuthCode
             { clientId := originalRequest.clientId
               redirectUri := originalRequest.redirectUri
               scope := originalRequest.scope
               codeChallenge := originalRequest.codeChallenge
               codeChallengeMethod := originalRequest.codeChallengeMethod
               expiresAt := now + 10 * 60 * 1000
               externalTokens := none
               userId := none }
             { accessToken := tokenResponse.access_token
               refreshToken := tokenResponse.refresh_token
               idToken := tokenResponse.id_token
               expiresIn := tokenResponse.expires_in
               scope := tokenResponse.scope }
             (some ("external-user-" ++ freshUserHex)) s)

/-! ### Auxiliary lemmas about the map operations -/

theorem mapGet_mapDelete_self {α : Type} (m : List (String × α)) (k : String) :
    mapGet (mapDelete m k) k = none := by
  induction m with
  | nil => rfl
  | cons hd tl ih =>
    by_cases h : hd.1 = k
    · simpa [mapDelete, List.filter_cons, h] using ih
    · simpa [mapDelete, mapGet, List.filter_cons, List.find?_cons, h] using ih

/-! ### C1 -/

/-- C1: `exchangeAuthorizationCode` returns a non-null token descriptor iff a
grant exists for the code, it is unexpired, the presented `clientId` and
`redirectUri` exactly equal the stored ones, and `base64url(sha256(verifier))`
(here `H verifier`) equals the stored `codeChallenge`; in particular a call
with a mismatched `clientId` or `redirectUri` returns null. -/
theorem exchangeAuthorizationCode_success_iff (H : String → String) (now : Nat)
    (ftk fuid code verifier cid ruri : String) (s : ProviderState) :
    ((exchangeAuthorizationCode H now ftk fuid code verifier cid ruri s).1.isSome = true ↔
      ∃ g, mapGet s.authorizationCodes code = some g ∧ ¬ g.expiresAt < now ∧
        g.clientId = cid ∧ g.redirectUri = ruri ∧ H verifier = g.codeChallenge) ∧
    (∀ g, mapGet s.authorizationCodes code = some g →
      g.clientId ≠ cid ∨ g.redirectUri ≠ ruri →
      (exchangeAuthorizationCode H now ftk fuid code verifier cid ruri s).1 = none) := by
  constructor
  · cases hg : mapGet s.authorizationCodes code with
    | none => simp [exchangeAuthorizationCode, hg]
    | some g =>
      simp only [exchangeAuthorizationCode, hg]
      split_ifs with h1 h2 h3 <;>
        simp_all [verifyPKCE, beq_iff_eq] <;> tauto
  · intro g hg hmis
    simp only [exchangeAuthorizationCode, hg]
    split_ifs <;> simp_all

/-- Witness for C1: with a stored grant for client `"X"` and a matching
verifier, presenting client id `"Y"` yields `none`. -/
theorem exchangeAuthorizationCode_success_iff_w :
    (exchangeAuthorizationCode (fun v => "H" ++ v) 500 "tok" "uid" "c1" "V1" "Y" "R"
      ⟨[("c1", ⟨"X", "R", "s", "HV1", "S256", 1000, none, none⟩)], []⟩).1 = none :=
  (exchangeAuthorizationCode_success_iff (fun v => "H" ++ v) 500 "tok" "uid"
      "c1" "V1" "Y" "R"
      ⟨[("c1", ⟨"X", "R", "s", "HV1", "S256", 1000, none, none⟩)], []⟩).2
    ⟨"X", "R", "s", "HV1", "S256", 1000, none, none⟩ (by decide)
    (Or.inl (by decide))

/-! ### C2 -/

/-- C2: after `exchangeAuthorizationCode` succeeds once for a code, the grant
no longer exists in the store, and a second call with identical arguments
(whatever the later time and fresh random draws) returns null. -/
theorem exchangeAuthorizationCode_single_use (H : String → String) (now : Nat)
    (ftk fuid code verifier cid ruri : String) (s : ProviderState)
    (t : TokenDescriptor) (s1 : ProviderState)
    (h : exchangeAuthorizationCode H now ftk fuid code verifier cid ruri s =
      (some t, s1)) :
    mapGet s1.authorizationCodes code = none ∧
    ∀ now2 ftk2 fuid2,
      (exchangeAuthorizationCode H now2 ftk2 fuid2 code verifier cid ruri s1).1 =
        none := by
  have hnone : mapGet s1.authorizationCodes code = none := by
    cases hg : mapGet s.authorizationCodes code with
    | none => simp [exchangeAuthorizationCode, hg] at h
    | some g =>
      simp only [exchangeAuthorizationCode, hg] at h
      split_ifs at h with h1 h2 h3 <;>
        simp only [Prod.mk.injEq, Option.some.injEq, reduceCtorEq, false_and] at h
      obtain ⟨-, hs⟩ := h
      rw [← hs]
      exact mapGet_mapDelete_self s.authorizationCodes code
  refine ⟨hnone, fun now2 ftk2 fuid2 => ?_⟩
  simp [exchangeAuthorizationCode, hnone]

/-- Witness for C2: the concrete scenario of the spec — grant `"c1"` for
client `"X"`, redirect `"R"`, challenge `H "V1"`; the first exchange succeeds
and the repeat call returns null. -/
theorem exchangeAuthorizationCode_single_use_w :
    exchangeAuthorizationCode (fun v => "H" ++ v) 500 "tok" "uid" "c1" "V1" "X" "R"
        ⟨[("c1", ⟨"X", "R", "s", "HV1", "S256", 1000, none, none⟩)], []⟩ =
      (some ⟨"mcp_tok", 3600, "s"⟩,
       ⟨[], [("mcp_tok", ⟨"uid", "s", 3600500, none⟩)]⟩) ∧
    (exchangeAuthorizationCode (fun v => "H" ++ v) 600 "tok2" "uid2" "c1" "V1" "X" "R"
        ⟨[], [("mcp_tok", ⟨"uid", "s", 3600500, none⟩)]⟩).1 = none := by
  refine ⟨by decide, ?_⟩
  exact (exchangeAuthorizationCode_single_use (fun v => "H" ++ v) 500 "tok" "uid"
      "c1" "V1" "X" "R"
      ⟨[("c1", ⟨"X", "R", "s", "HV1", "S256", 1000, none, none⟩)], []⟩
      ⟨"mcp_tok", 3600, "s"⟩
      ⟨[], [("mcp_tok", ⟨"uid", "s", 3600500, none⟩)]⟩ (by decide)).2 600 "tok2" "uid2"

/-! ### C3 -/

/-- C3: every consuming operation rejects a record whose `expiresAt` lies in
the past and deletes it from its store in the same call:
`exchangeAuthorizationCode` returns null and deletes the grant,
`OAuthProvider.validateToken` returns `valid := false` and deletes the access
token, and the callback handler answers `invalid_request` and deletes the
pending request. -/
theorem expired_records_rejected_and_deleted :
    (∀ (H : String → String) (now : Nat) (ftk fuid code verifier cid ruri : String)
        (s : ProviderState) (g : AuthorizationCodeData),
      mapGet s.authorizationCodes code = some g → g.expiresAt < now →
      exchangeAuthorizationCode H now ftk fuid code verifier cid ruri s =
        (none, { s with authorizationCodes := mapDelete s.authorizationCodes code })) ∧
    (∀ (now : Nat) (token : String) (s : ProviderState) (d : AccessTokenData),
      mapGet s.accessTokens token = some d → d.expiresAt < now →
      providerValidateToken now token s =
        ({ valid := false, userId := none, scope := none },
         { s with accessTokens := mapDelete s.accessTokens token })) ∧
    (∀ (now : Nat) (exch : Option TokenExchangeResponse) (mcp fu : String)
        (q : CallbackQuery) (pending : List (String × PendingAuthRequest))
        (s : ProviderState) (st : String) (p : PendingAuthRequest),
      jsTruthy q.error = false → jsTruthy q.code = true →
      q.state = some st → st ≠ "" →
      mapGet pending st = some p → p.expiresAt < now →
      callbackHandler now exch mcp fu q pending s =
        (.errorResp 400 "invalid_request" "Authorization request has expired",
         mapDelete pending st, s)) := by
  refine ⟨?_, ?_, ?_⟩
  · intro H now ftk fuid code verifier cid ruri s g hg hexp
    simp [exchangeAuthorizationCode, hg, hexp]
  · intro now token s d hd hexp
    simp [providerValidateToken, hd, hexp]
  · intro now exch mcp fu q pending s st p herr hcode hstate hst hp hexp
    have hstT : jsTruthy q.state = true := by simp [hstate, jsTruthy, hst]
    have hgetD : q.state.getD "" = st := by simp [hstate]
    simp [callbackHandler, herr, hcode, hstT, hgetD, hp, hexp]

/-- Witness for C3: an expired grant, an expired access token, and an expired
pending request are each rejected and deleted at concrete inputs. -/
theorem expired_records_rejected_and_deleted_w :
    exchangeAuthorizationCode (fun v => "H" ++ v) 2000 "tok" "uid" "c1" "V1" "X" "R"
        ⟨[("c1", ⟨"X", "R", "s", "HV1", "S256", 1000, none, none⟩)], []⟩ =
      (none, ⟨[], []⟩) ∧
    providerValidateToken 2000 "tk"
        ⟨[], [("tk", ⟨"u", "s", 1000, none⟩)]⟩ =
      ({ valid := false, userId := none, scope := none }, ⟨[], []⟩) ∧
    callbackHandler 2000 none "mc" "uh"
        ⟨some "idpcode", some "rid1", none, none⟩
        [("rid1", ⟨"X", "R", "s", "st0", "HV1", "S256", 1000, "ev", "HC"⟩)]
        ⟨[], []⟩ =
      (.errorResp 400 "invalid_request" "Authorization request has expired",
       [], ⟨[], []⟩) := by
  refine ⟨?_, ?_, ?_⟩
  · exact expired_records_rejected_and_deleted.1 (fun v => "H" ++ v) 2000 "tok" "uid"
      "c1" "V1" "X" "R" ⟨[("c1", ⟨"X", "R", "s", "HV1", "S256", 1000, none, none⟩)], []⟩
      ⟨"X", "R", "s", "HV1", "S256", 1000, none, none⟩ (by decide) (by decide)
  · exact expired_records_rejected_and_deleted.2.1 2000 "tk"
      ⟨[], [("tk", ⟨"u", "s", 1000, none⟩)]⟩ ⟨"u", "s", 1000, none⟩
      (by decide) (by decide)
  · exact expired_records_rejected_and_deleted.2.2 2000 none "mc" "uh"
      ⟨some "idpcode", some "rid1", none, none⟩
      [("rid1", ⟨"X", "R", "s", "st0", "HV1", "S256", 1000, "ev", "HC"⟩)]
      ⟨[], []⟩ "rid1" ⟨"X", "R", "s", "st0", "HV1", "S256", 1000, "ev", "HC"⟩
      (by decide) (by decide) (by decide) (by decide) (by decide) (by decide)

/-! ### C4 -/

/-- C4: `OAuthTokenValidator.validateToken` never throws — every outcome of
the external effects yields a plain result, and every failure carries a
non-empty error string; in particular an opaque token against a validator
with no matching introspection record yields "Token introspection failed" on
a non-ok response and "Token is not active" on an inactive record. -/
theorem validateToken_never_throws :
    (∀ (a : Option String) (t : String) (j : JWTVerifyOutcome) (f : FetchOutcome),
      (validateToken a t j f).valid = false →
      (validateToken a t j f).error ≠ none ∧ (validateToken a t j f).error ≠ some "") ∧
    (∀ j, validateToken none "garbage" j FetchOutcome.badStatus =
      { valid := false, userId := none, error := some "Token introspection failed" }) ∧
    (∀ j b, b.active = false →
      validateToken none "garbage" j (FetchOutcome.ok b) =
        { valid := false, userId := none, error := some "Token is not active" }) := by
  have hshape : isJWTShaped "garbage" = false := by decide
  refine ⟨?_, ?_, ?_⟩
  · intro a t j f
    cases hs : isJWTShaped t <;> cases j <;> cases f <;>
      simp_all [validateToken, validateJWT, introspectToken] <;>
      split_ifs <;> simp_all
  · intro j
    simp [validateToken, hshape, introspectToken]
  · intro j b hb
    simp [validateToken, hshape, introspectToken, hb]

/-- Witness for C4: a JWT-shaped token whose verification path throws on the
introspection request yields a failure with a non-empty error, and an opaque
token with an inactive introspection record yields "Token is not active". -/
theorem validateToken_never_throws_w :
    (validateToken none "a.b.c" JWTVerifyOutcome.otherError FetchOutcome.threw).valid =
      false ∧
    (validateToken none "a.b.c" JWTVerifyOutcome.otherError FetchOutcome.threw).error ≠
      none ∧
    validateToken none "garbage" JWTVerifyOutcome.otherError
        (FetchOutcome.ok ⟨false, none, none, none, none⟩) =
      { valid := false, userId := none, error := some "Token is not active" } :=
  ⟨by decide,
   (validateToken_never_throws.1 none "a.b.c" JWTVerifyOutcome.otherError
      FetchOutcome.threw (by decide)).1,
   validateToken_never_throws.2.2 JWTVerifyOutcome.otherError
     ⟨false, none, none, none, none⟩ rfl⟩

/-! ### C5 -/

/-- C5: on the JWT validation path an expired token yields exactly
"Token expired", a structurally invalid JWT yields exactly "Invalid token",
an absent matching signing key yields exactly "No matching key found", and
every other verification failure invokes the introspection path on the same
token instead of producing a terminal error. -/
theorem validateJWT_error_classification :
    (∀ (a : Option String) (token : String) (f : FetchOutcome),
      isJWTShaped token = true →
      validateToken a token JWTVerifyOutcome.expired f =
        { valid := false, userId := none, error := some "Token expired" } ∧
      validateToken a token JWTVerifyOutcome.invalid f =
        { valid := false, userId := none, error := some "Invalid token" } ∧
      validateToken a token JWTVerifyOutcome.noMatchingKey f =
        { valid := false, userId := none, error := some "No matching key found" }) ∧
    (∀ (a : Option String) (f : FetchOutcome),
      validateJWT a JWTVerifyOutcome.otherError f = introspectToken a f) := by
  refine ⟨?_, fun a f => rfl⟩
  intro a token f h
  refine ⟨?_, ?_, ?_⟩ <;> simp [validateToken, h, validateJWT]

/-- Witness for C5: the three terminal classifications at the concrete
JWT-shaped token `"a.b.c"`. -/
theorem validateJWT_error_classification_w :
    validateToken none "a.b.c" JWTVerifyOutcome.expired FetchOutcome.threw =
      { valid := false, userId := none, error := some "Token expired" } ∧
    validateToken none "a.b.c" JWTVerifyOutcome.invalid FetchOutcome.threw =
      { valid := false, userId := none, error := some "Invalid token" } ∧
    validateToken none "a.b.c" JWTVerifyOutcome.noMatchingKey FetchOutcome.threw =
      { valid := false, userId := none, error := some "No matching key found" } :=
  validateJWT_error_classification.1 none "a.b.c" FetchOutcome.threw (by decide)

/-! ### C6 -/

/-- Counterexample to C6 as stated: a token that fails local JWT verification
because it is expired, for which introspection would report `active := true`,
does not validate — the code returns the terminal "Token expired" result
without consulting introspection. -/
theorem jwt_fallback_counterexample :
    (validateToken none "a.b.c" JWTVerifyOutcome.expired
      (FetchOutcome.ok ⟨true, none, some "u1", none, none⟩)).valid = false ∧
    validateToken none "a.b.c" JWTVerifyOutcome.expired
        (FetchOutcome.ok ⟨true, none, some "u1", none, none⟩) =
      { valid := false, userId := none, error := some "Token expired" } :=
  ⟨by decide, by decide⟩

/-- C6 (amended): for every token whose local JWT verification fails with an
error other than the three terminal classifications (expired, structurally
invalid, no matching key), and whose introspection response is successful with
`active := true` and a matching audience when one is configured,
`validateToken` returns `valid := true` with `userId` derived from `sub`,
else `user_id`, else `username`, in that priority order. -/
theorem jwt_fallback_amended (a : Option String) (token : String)
    (b : IntrospectionBody) (hshape : isJWTShaped token = true)
    (hactive : b.active = true) (haud : jsTruthy a = true → b.aud = a) :
    validateToken a token JWTVerifyOutcome.otherError (FetchOutcome.ok b) =
      { valid := true, userId := jsOr b.sub (jsOr b.user_id b.username),
        error := none } ∧
    (∀ u, b.sub = some u → u ≠ "" →
      (validateToken a token JWTVerifyOutcome.otherError
        (FetchOutcome.ok b)).userId = some u) := by
  have hcond : ¬(jsTruthy a = true ∧ b.aud ≠ a) := by
    rintro ⟨h1, h2⟩
    exact h2 (haud h1)
  have hmain : validateToken a token JWTVerifyOutcome.otherError (FetchOutcome.ok b) =
      { valid := true, userId := jsOr b.sub (jsOr b.user_id b.username),
        error := none } := by
    simp [validateToken, hshape, validateJWT, introspectToken, hactive, hcond]
  refine ⟨hmain, fun u hu hne => ?_⟩
  rw [hmain]
  simp [jsOr, jsTruthy, hu, hne]

/-- Witness for the amended C6: a JWT-shaped token whose verification fails
non-terminally, with a configured audience matched by the introspection body,
validates as user `"alice"` taken from `sub`. -/
theorem jwt_fallback_amended_w :
    validateToken (some "aud1") "a.b.c" JWTVerifyOutcome.otherError
        (FetchOutcome.ok ⟨true, some "aud1", some "alice", some "other", none⟩) =
      { valid := true, userId := some "alice", error := none } :=
  ((jwt_fallback_amended (some "aud1") "a.b.c"
      ⟨true, some "aud1", some "alice", some "other", none⟩
      (by decide) rfl (fun _ => rfl)).2 "alice" rfl (by decide)).symm ▸
    ((jwt_fallback_amended (some "aud1") "a.b.c"
      ⟨true, some "aud1", some "alice", some "other", none⟩
      (by decide) rfl (fun _ => rfl)).1.trans (by decide))

theorem mapGet_mapSet_self {α : Type} (m : List (String × α)) (k : String) (v : α) :
    mapGet (mapSet m k v) k = some v := by
  simp [mapGet, mapSet, List.find?_cons]

/-! ### C7 -/

/-- C7: an `/authorize` request in proxy mode that passes the earlier
parameter validations but lacks `code_challenge` or declares a
`code_challenge_method` other than `"S256"` is rejected with
`invalid_request`, any request failing the PKCE check stores no
`PendingAuthRequest`, and a request is only ever accepted (redirected to the
IdP) when the method is exactly `"S256"`. -/
theorem authorize_requires_S256 :
    (∀ (cfg : AuthConfig) (now : Nat) (rid fs ev : String) (H : String → String)
        (q : AuthorizeQuery) (pending : List (String × PendingAuthRequest)),
      cfg.ENABLE_AUTH = true → q.response_type = some "code" →
      jsTruthy q.client_id = true → jsTruthy q.redirect_uri = true →
      (jsTruthy q.code_challenge = false ∨ q.code_challenge_method ≠ some "S256") →
      authorizeHandler cfg now rid fs ev H q pending =
        (.errorResp 400 "invalid_request" "PKCE with S256 is required", pending)) ∧
    (∀ (cfg : AuthConfig) (now : Nat) (rid fs ev : String) (H : String → String)
        (q : AuthorizeQuery) (pending pending1 : List (String × PendingAuthRequest))
        (b : String) (ps : List (String × String)),
      authorizeHandler cfg now rid fs ev H q pending = (.redirect b ps, pending1) →
      q.code_challenge_method = some "S256" ∧ jsTruthy q.code_challenge = true) ∧
    (∀ (cfg : AuthConfig) (now : Nat) (rid fs ev : String) (H : String → String)
        (q : AuthorizeQuery) (pending : List (String × PendingAuthRequest)),
      (jsTruthy q.code_challenge = false ∨ q.code_challenge_method ≠ some "S256") →
      (authorizeHandler cfg now rid fs ev H q pending).2 = pending) := by
  refine ⟨?_, ?_, ?_⟩
  · intro cfg now rid fs ev H q pending h1 h2 h3 h4 hpkce
    unfold authorizeHandler
    rw [if_neg (by simp [h1]), if_neg (by simp [h2]), if_neg (by simp [h3, h4]),
      if_pos hpkce]
  · intro cfg now rid fs ev H q pending pending1 b ps h
    unfold authorizeHandler at h
    split_ifs at h with h1 h2 h3 h4
    · simp at h
    · simp at h
    · simp at h
    · simp at h
    · push_neg at h4
      exact ⟨h4.2, by simpa using h4.1⟩
  · intro cfg now rid fs ev H q pending hpkce
    unfold authorizeHandler
    split_ifs <;> rfl

/-- Witness for C7: a well-formed request that declares method `"plain"` is
rejected with `invalid_request` and the pending-request store is unchanged. -/
theorem authorize_requires_S256_w :
    authorizeHandler ⟨true, "https://idp", "cid", "https://me/cb"⟩ 0 "rid" "fs" "ev"
        (fun v => "H" ++ v)
        ⟨some "code", some "mc", some "https://client/cb", none, none,
         some "CH", some "plain"⟩ [] =
      (.errorResp 400 "invalid_request" "PKCE with S256 is required", []) :=
  authorize_requires_S256.1 ⟨true, "https://idp", "cid", "https://me/cb"⟩ 0
    "rid" "fs" "ev" (fun v => "H" ++ v)
    ⟨some "code", some "mc", some "https://client/cb", none, none,
     some "CH", some "plain"⟩ []
    rfl rfl rfl rfl (Or.inr (by decide))

/-! ### C8 -/

/-- Counterexample to C8 as stated: with an unexpired `PendingAuthRequest`
stored under `"rid1"` and a failing IdP token exchange, the callback deletes
the pending request — the resulting store is empty, not left untouched. -/
theorem callback_failure_counterexample :
    callbackHandler 500 none "mc" "uh" ⟨some "idpcode", some "rid1", none, none⟩
        [("rid1", ⟨"X", "R", "s", "st0", "HV1", "S256", 1000, "ev", "HC"⟩)]
        ⟨[], []⟩ =
      (.errorResp 500 "server_error"
        "Failed to exchange authorization code for tokens", [], ⟨[], []⟩) ∧
    ([] : List (String × PendingAuthRequest)) ≠
      [("rid1", ⟨"X", "R", "s", "st0", "HV1", "S256", 1000, "ev", "HC"⟩)] :=
  ⟨by decide, by decide⟩

/-- C8 (amended): when the callback's token exchange with the external IdP
fails mid-flow (the exchange helper returns null), the callback deletes the
stored `PendingAuthRequest` in that same call and answers `server_error`; the
provider stores are untouched and no grant is minted. -/
theorem callback_failure_deletes_pending (now : Nat) (mcp fu : String)
    (q : CallbackQuery) (pending : List (String × PendingAuthRequest))
    (s : ProviderState) (st : String) (p : PendingAuthRequest)
    (herr : jsTruthy q.error = false) (hcode : jsTruthy q.code = true)
    (hstate : q.state = some st) (hst : st ≠ "")
    (hp : mapGet pending st = some p) (hexp : ¬ p.expiresAt < now) :
    callbackHandler now none mcp fu q pending s =
      (.errorResp 500 "server_error"
        "Failed to exchange authorization code for tokens",
       mapDelete pending st, s) := by
  have hstT : jsTruthy q.state = true := by simp [hstate, jsTruthy, hst]
  have hgetD : q.state.getD "" = st := by simp [hstate]
  simp [callbackHandler, herr, hcode, hstT, hgetD, hp, hexp]

/-- Witness for the amended C8: the concrete failing exchange deletes the
pending request. -/
theorem callback_failure_deletes_pending_w :
    callbackHandler 500 none "mc" "uh" ⟨some "idpcode", some "rid1", none, none⟩
        [("rid1", ⟨"X", "R", "s", "st0", "HV1", "S256", 1000, "ev", "HC"⟩)]
        ⟨[], []⟩ =
      (.errorResp 500 "server_error"
        "Failed to exchange authorization code for tokens",
       mapDelete [("rid1", ⟨"X", "R", "s", "st0", "HV1", "S256", 1000, "ev", "HC"⟩)]
         "rid1", ⟨[], []⟩) :=
  callback_failure_deletes_pending 500 "mc" "uh"
    ⟨some "idpcode", some "rid1", none, none⟩
    [("rid1", ⟨"X", "R", "s", "st0", "HV1", "S256", 1000, "ev", "HC"⟩)]
    ⟨[], []⟩ "rid1" ⟨"X", "R", "s", "st0", "HV1", "S256", 1000, "ev", "HC"⟩
    rfl rfl rfl (by decide) (by decide) (by decide)

/-! ### C9 -/

/-- C9: for an unexpired stored grant, a failed exchange caused by a
`clientId`/`redirectUri` mismatch or a PKCE verifier mismatch leaves the
provider state completely unchanged (in particular no access token is
minted), and the same code can still be exchanged successfully afterwards
with the correct arguments. -/
theorem failed_exchange_preserves_grant (H : String → String) (now : Nat)
    (ftk fuid code verifier cid ruri : String) (s : ProviderState)
    (g : AuthorizationCodeData)
    (hg : mapGet s.authorizationCodes code = some g)
    (hexp : ¬ g.expiresAt < now)
    (hfail : g.clientId ≠ cid ∨ g.redirectUri ≠ ruri ∨ H verifier ≠ g.codeChallenge) :
    exchangeAuthorizationCode H now ftk fuid code verifier cid ruri s = (none, s) ∧
    ∀ (now2 : Nat) (ftk2 fuid2 verifier2 : String), ¬ g.expiresAt < now2 →
      H verifier2 = g.codeChallenge →
      (exchangeAuthorizationCode H now2 ftk2 fuid2 code verifier2 g.clientId
        g.redirectUri s).1.isSome = true := by
  constructor
  · simp only [exchangeAuthorizationCode, hg]
    rw [if_neg hexp]
    by_cases hm : g.clientId ≠ cid ∨ g.redirectUri ≠ ruri
    · rw [if_pos hm]
    · rw [if_neg hm]
      have hpk : H verifier ≠ g.codeChallenge := by
        push_neg at hm
        rcases hfail with h | h | h
        · exact (h hm.1).elim
        · exact (h hm.2).elim
        · exact h
      rw [if_pos (by simp [verifyPKCE, hpk])]
  · intro now2 ftk2 fuid2 verifier2 hexp2 hpk2
    simp [exchangeAuthorizationCode, hg, hexp2, verifyPKCE, hpk2]

/-- Witness for C9: the mismatched call leaves the state unchanged and the
correct call still succeeds on the same grant. -/
theorem failed_exchange_preserves_grant_w :
    exchangeAuthorizationCode (fun v => "H" ++ v) 500 "tok" "uid" "c1" "V1" "Y" "R"
        ⟨[("c1", ⟨"X", "R", "s", "HV1", "S256", 1000, none, none⟩)], []⟩ =
      (none, ⟨[("c1", ⟨"X", "R", "s", "HV1", "S256", 1000, none, none⟩)], []⟩) ∧
    (exchangeAuthorizationCode (fun v => "H" ++ v) 600 "tok2" "uid2" "c1" "V1" "X" "R"
        ⟨[("c1", ⟨"X", "R", "s", "HV1", "S256", 1000, none, none⟩)], []⟩).1.isSome =
      true :=
  ⟨(failed_exchange_preserves_grant (fun v => "H" ++ v) 500 "tok" "uid" "c1" "V1"
      "Y" "R" ⟨[("c1", ⟨"X", "R", "s", "HV1", "S256", 1000, none, none⟩)], []⟩
      ⟨"X", "R", "s", "HV1", "S256", 1000, none, none⟩
      (by decide) (by decide) (Or.inl (by decide))).1,
   (failed_exchange_preserves_grant (fun v => "H" ++ v) 500 "tok" "uid" "c1" "V1"
      "Y" "R" ⟨[("c1", ⟨"X", "R", "s", "HV1", "S256", 1000, none, none⟩)], []⟩
      ⟨"X", "R", "s", "HV1", "S256", 1000, none, none⟩
      (by decide) (by decide) (Or.inl (by decide))).2 600 "tok2" "uid2" "V1"
      (by decide) rfl⟩

/-! ### C10 -/

/-- C10: an `/authorize` request in proxy mode that omits the `state`
parameter stores a `PendingAuthRequest` whose `state` is the freshly
generated random value, and the redirect issued by a successful callback for
a pending request always carries a `state` query parameter, namely the stored
`state`. -/
theorem generated_state_flows_to_redirect :
    (∀ (cfg : AuthConfig) (now : Nat) (rid fs ev : String) (H : String → String)
        (q : AuthorizeQuery) (pending : List (String × PendingAuthRequest)),
      cfg.ENABLE_AUTH = true → q.response_type = some "code" →
      jsTruthy q.client_id = true → jsTruthy q.redirect_uri = true →
      jsTruthy q.code_challenge = true → q.code_challenge_method = some "S256" →
      jsTruthy q.state = false →
      ((mapGet (authorizeHandler cfg now rid fs ev H q pending).2 rid).map
        (fun p => p.state)) = some fs) ∧
    (∀ (now : Nat) (tr : TokenExchangeResponse) (mcp fu : String)
        (q : CallbackQuery) (pending : List (String × PendingAuthRequest))
        (s : ProviderState) (st : String) (p : PendingAuthRequest),
      jsTruthy q.error = false → jsTruthy q.code = true →
      q.state = some st → st ≠ "" →
      mapGet pending st = some p → ¬ p.expiresAt < now →
      (callbackHandler now (some tr) mcp fu q pending s).1 =
        .redirect p.redirectUri [("code", mcp), ("state", p.state)]) := by
  constructor
  · intro cfg now rid fs ev H q pending h1 h2 h3 h4 h5 h6 hstate
    unfold authorizeHandler
    rw [if_neg (by simp [h1]), if_neg (by simp [h2]), if_neg (by simp [h3, h4]),
      if_neg (by simp [h5, h6])]
    simp [mapGet_mapSet_self, jsOrDefault, hstate]
  · intro now tr mcp fu q pending s st p herr hcode hstate hst hp hexp
    have hstT : jsTruthy q.state = true := by simp [hstate, jsTruthy, hst]
    have hgetD : q.state.getD "" = st := by simp [hstate]
    simp [callbackHandler, herr, hcode, hstT, hgetD, hp, hexp]

/-- Witness for C10: an authorize call with no `state` stores the generated
value `"fs1"`, and a successful callback on that stored request redirects
with `state=fs1`. -/
theorem generated_state_flows_to_redirect_w :
    ((mapGet (authorizeHandler ⟨true, "https://idp", "cid", "https://me/cb"⟩ 0
        "rid1" "fs1" "ev" (fun v => "H" ++ v)
        ⟨some "code", some "mc", some "https://client/cb", none, none,
         some "CH", some "S256"⟩ []).2 "rid1").map (fun p => p.state)) =
      some "fs1" ∧
    (callbackHandler 500 (some ⟨"at", "Bearer", 3600, none, none, none⟩) "mc2" "uh"
        ⟨some "idpcode", some "rid1", none, none⟩
        [("rid1", ⟨"mc", "https://client/cb", "s", "fs1", "CH", "S256", 1000,
          "ev", "HCH"⟩)] ⟨[], []⟩).1 =
      .redirect "https://client/cb" [("code", "mc2"), ("state", "fs1")] :=
  ⟨generated_state_flows_to_redirect.1 ⟨true, "https://idp", "cid", "https://me/cb"⟩
      0 "rid1" "fs1" "ev" (fun v => "H" ++ v)
      ⟨some "code", some "mc", some "https://client/cb", none, none,
       some "CH", some "S256"⟩ [] rfl rfl rfl rfl rfl rfl rfl,
   generated_state_flows_to_redirect.2 500 ⟨"at", "Bearer", 3600, none, none, none⟩
      "mc2" "uh" ⟨some "idpcode", some "rid1", none, none⟩
      [("rid1", ⟨"mc", "https://client/cb", "s", "fs1", "CH", "S256", 1000,
        "ev", "HCH"⟩)] ⟨[], []⟩ "rid1"
      ⟨"mc", "https://client/cb", "s", "fs1", "CH", "S256", 1000, "ev", "HCH"⟩
      rfl rfl rfl (by decide) (by decide) (by decide)⟩
